import Mathlib

/-!
Shallow embedding of the grievance backend (server/index.js): the command
interpreter reached from the Telegram poll loop, the notification gateway
with its plain-text fallback, the submission validation routes, the diary
listing limit, the update cursor of the poller, and the time-derived
identity generator.  JavaScript strings are modelled as Lean strings,
JavaScript numbers as exact rationals extended with NaN and infinities,
and timestamps as naturals (milliseconds).
-/

namespace GrievanceApp

/-! ### JavaScript string primitives -/

/-- Whitespace class used by the regexes and by trim in the source
(space, tab, newline, carriage return, vertical tab, form feed,
no-break space, BOM). -/
def jsIsSpace (c : Char) : Bool :=
  c = ' ' || c = '\t' || c = '\n' || c = '\r' || c = '\x0b' || c = '\x0c' ||
  c = '\xa0' || c = '\uFEFF'

/-- Negation of the whitespace class, the regex token for non-space. -/
def notSpace (c : Char) : Bool := !jsIsSpace c

/-- Both-ends trim on a character list, as String.prototype.trim. -/
def jsTrimChars (l : List Char) : List Char :=
  ((l.dropWhile jsIsSpace).reverse.dropWhile jsIsSpace).reverse

/-- Both-ends trim, as String.prototype.trim applied in the poll loop. -/
def jsTrim (s : String) : String := String.mk (jsTrimChars s.data)

/-- Case-insensitive anchored match of a lowercase pattern against the
head of a character list; returns the remainder on success.  Models the
case-insensitive prefix part of the anchored regexes in the source. -/
def lcPre : List Char → List Char → Option (List Char)
  | [], t => some t
  | _ :: _, [] => none
  | p :: ps, c :: cs => if c.toLower = p then lcPre ps cs else none

/-- Word character class of the regex word-boundary token. -/
def jsWordChar (c : Char) : Bool := c.isAlphanum || c = '_'

/-- A word boundary holds after a word character when the rest of the
input is empty or starts with a non-word character. -/
def wordBoundaryAfter : List Char → Bool
  | [] => true
  | c :: _ => !jsWordChar c

/-! ### Command classification (pollTelegramUpdates guards) -/

/-- Test for the anchored case-insensitive pattern slash-clear followed by
a word boundary, the first guard of the dispatch chain. -/
def isClearCmd (t : String) : Bool :=
  match lcPre "/clear".data t.data with
  | some rest => wordBoundaryAfter rest
  | none => false

/-- Test for the anchored case-insensitive pattern slash-confirm_clear
followed by a word boundary, the second guard of the dispatch chain. -/
def isConfirmClearCmd (t : String) : Bool :=
  match lcPre "/confirm_clear".data t.data with
  | some rest => wordBoundaryAfter rest
  | none => false

/-- Shared tail of the reply regexes: optional-or-required whitespace, a
non-empty non-space token, at least one whitespace, then a non-empty
remainder captured greedily and finally trimmed.  When `requireWs` is
true the leading whitespace run must be non-empty (the reply form);
otherwise it may be empty (the id form). -/
def tokThenText (requireWs : Bool) (l : List Char) : Option (String × String) :=
  let ok1 := if requireWs then (match l with | c :: _ => jsIsSpace c | [] => false) else true
  if ok1 then
    let r1 := l.dropWhile jsIsSpace
    let tok := r1.takeWhile notSpace
    let r2 := r1.dropWhile notSpace
    if tok = [] then none
    else
      match r2 with
      | [] => none
      | _ :: _ =>
        let g2 := r2.dropWhile jsIsSpace
        if g2 = [] then
          if r2.length ≥ 2 then some (String.mk tok, String.mk (jsTrimChars (r2.drop (r2.length - 1))))
          else none
        else some (String.mk tok, String.mk (jsTrimChars g2))
  else none

/-- Parse of the reply command: the keyword reply (case-insensitive),
then whitespace, a token and the reply text. -/
def parseReplyCmd (t : String) : Option (String × String) :=
  match lcPre "reply".data t.data with
  | some rest => tokThenText true rest
  | none => none

/-- Parse of the id command: the keyword id (case-insensitive), an
optional colon or hash (with regex backtracking when consuming it would
make the rest of the pattern fail), optional whitespace, a token and the
reply text. -/
def parseIdCmd (t : String) : Option (String × String) :=
  match lcPre "id".data t.data with
  | some rest =>
    match rest with
    | c :: r =>
      if c = ':' || c = '#' then
        (tokThenText false r).orElse (fun _ => tokThenText false rest)
      else tokThenText false rest
    | [] => none
  | none => none

/-- Parse of the delete_diary command: the keyword (case-insensitive),
at least one whitespace, then a non-empty non-space token. -/
def parseDeleteDiary (t : String) : Option String :=
  match lcPre "delete_diary".data t.data with
  | some rest =>
    match rest with
    | c :: _ =>
      if jsIsSpace c then
        let r1 := rest.dropWhile jsIsSpace
        let tok := r1.takeWhile notSpace
        if tok = [] then none else some (String.mk tok)
      else none
    | [] => none
  | none => none

/-- Transient parsed value of an inbound message, in the priority order
of the guards in pollTelegramUpdates. -/
inductive Cmd where
  | clearReq
  | clearConfirm
  | delDiary (tok : String)
  | record (gid : String) (rtext : String)
  | other
deriving Repr, DecidableEq

/-- Classification of a trimmed inbound text: slash-clear first, then
slash-confirm_clear, then delete_diary, then the reply form, then the id
form, and otherwise unrecognized. -/
def classify (text : String) : Cmd :=
  if isClearCmd text then .clearReq
  else if isConfirmClearCmd text then .clearConfirm
  else
    match parseDeleteDiary text with
    | some tok => .delDiary tok
    | none =>
      match parseReplyCmd text with
      | some p => .record p.1 p.2
      | none =>
        match parseIdCmd text with
        | some p => .record p.1 p.2
        | none => .other

/-! ### Data model (rows of the three tables) -/

/-- Row of the grievances table: time-derived text identity, author,
body, optional reply, optional media references, creation and reply
timestamps. -/
structure GrievanceRec where
  id : String
  username : String
  text : String
  reply : Option String
  audio_url : Option String
  telegram_file_id : Option String
  created_at : Nat
  replied_at : Option Nat
deriving Repr, DecidableEq

/-- Row of the moods table: serial identity, author, numeric value and
creation timestamp.  The value column holds whatever number passed the
route validation, modelled as an exact rational. -/
structure MoodRec where
  id : Nat
  username : String
  value : ℚ
  created_at : Nat
deriving Repr, DecidableEq

/-- Row of the diary_notes table. -/
structure DiaryRec where
  id : String
  username : Option String
  title : Option String
  body : String
  audio_url : Option String
  telegram_file_id : Option String
  created_at : Nat
deriving Repr, DecidableEq

/-- The record store: the three tables. -/
structure DB where
  grievances : List GrievanceRec
  moods : List MoodRec
  diary : List DiaryRec
deriving Repr, DecidableEq

/-- The empty store. -/
def DB.empty : DB := ⟨[], [], []⟩

/-- An outbound sendMessage call recorded by the model: destination chat,
text, and the optional parse mode. -/
structure SentMsg where
  chat_id : String
  text : String
  parse_mode : Option String
deriving Repr, DecidableEq

/-! ### Bulk clear (the slash-confirm_clear handler body) -/

/-- Failure oracle for the three sequential DELETE statements of the
confirm-clear handler: which statement (grievances, moods, diary_notes)
throws, with its error message.  A failing single statement deletes
nothing itself, and nothing is rolled back across statements. -/
inductive ClearFail where
  | atG (e : String)
  | atM (e : String)
  | atD (e : String)
deriving Repr, DecidableEq

/-- The try block of the confirm-clear handler: three sequential deletes;
on success a reply with the three counts; on a throw, the catch logs the
error and replies with the failure text.  Returns the store afterwards,
the reply text sent to the sender, and the logged errors. -/
def doConfirmClear (db : DB) (fail : Option ClearFail) : DB × String × List String :=
  match fail with
  | some (.atG e) =>
    (db, "❌ Failed to delete data: " ++ e, ["Failed to delete data: " ++ e])
  | some (.atM e) =>
    ({ db with grievances := [] }, "❌ Failed to delete data: " ++ e,
     ["Failed to delete data: " ++ e])
  | some (.atD e) =>
    ({ db with grievances := [], moods := [] }, "❌ Failed to delete data: " ++ e,
     ["Failed to delete data: " ++ e])
  | none =>
    (DB.empty,
     "✅ Deleted " ++ Nat.repr db.grievances.length ++ " grievances, " ++
       Nat.repr db.moods.length ++ " moods and " ++ Nat.repr db.diary.length ++
       " diary notes.", [])

/-! ### Record store operations used by the interpreter -/

/-- The UPDATE statement of the reply paths: set reply and replied_at
together on every row whose id matches; the returned count is the row
count the handler branches on. -/
def updateGrievanceReply (l : List GrievanceRec) (gid rtext : String) (now : Nat) :
    List GrievanceRec × Nat :=
  (l.map (fun g => if g.id == gid then { g with reply := some rtext, replied_at := some now } else g),
   l.countP (fun g => g.id == gid))

/-- The DELETE statement of the delete_diary handler: remove every diary
row whose id matches, returning the new table and the row count. -/
def deleteDiaryById (l : List DiaryRec) (tok : String) : List DiaryRec × Nat :=
  (l.filter (fun d => !(d.id == tok)), l.countP (fun d => d.id == tok))

/-! ### Command interpreter (body of the per-message loop) -/

/-- Warning text sent to the admin on slash-clear. -/
def clearWarnText : String :=
  "⚠️ Are you sure you want to delete ALL grievances, moods and diary notes? If yes, reply with:\n/confirm_clear\n\nThis action is irreversible."

/-- Refusal text for unauthorized clear attempts. -/
def unauthClearText : String := "⛔ You are not authorized to clear history."

/-- Refusal text for unauthorized delete_diary attempts. -/
def unauthDiaryText : String := "⛔ You are not authorized to delete diary notes."

/-- Help text sent to the admin for unrecognized messages. -/
def helpText : String :=
  "Commands (examples):\nreply <GRIEVANCE_ID> <message>\n/clear to delete data\n/confirm_clear to confirm deletion\n\ndelete_diary <id>"

/-- One inbound message through the interpreter: trim the text, classify
it, and run the matched handler against the store.  `fail` is the
failure oracle for the bulk-clear deletes and `now` the database clock
used for replied_at.  Returns the store, the messages sent back through
sendTelegramTo (all with null parse mode), and logged errors. -/
def handleMessage (adminId fromChatId : String) (raw : String) (db : DB)
    (fail : Option ClearFail) (now : Nat) : DB × List SentMsg × List String :=
  let text := jsTrim raw
  match classify text with
  | .clearReq =>
    if fromChatId ≠ adminId then (db, [⟨fromChatId, unauthClearText, none⟩], [])
    else (db, [⟨fromChatId, clearWarnText, none⟩], [])
  | .clearConfirm =>
    if fromChatId ≠ adminId then (db, [⟨fromChatId, unauthClearText, none⟩], [])
    else
      let r := doConfirmClear db fail
      (r.1, [⟨fromChatId, r.2.1, none⟩], r.2.2)
  | .delDiary tok =>
    if fromChatId ≠ adminId then (db, [⟨fromChatId, unauthDiaryText, none⟩], [])
    else
      let r := deleteDiaryById db.diary tok
      if r.2 = 0 then (db, [⟨fromChatId, "No diary note found with ID " ++ tok ++ ".", none⟩], [])
      else ({ db with diary := r.1 }, [⟨fromChatId, "Deleted diary note " ++ tok ++ ".", none⟩], [])
  | .record gid rtext =>
    let u := updateGrievanceReply db.grievances gid rtext now
    if u.2 = 0 then (db, [⟨fromChatId, "No grievance found with ID " ++ gid ++ ".", none⟩], [])
    else ({ db with grievances := u.1 },
          [⟨fromChatId, "Reply recorded for grievance ID " ++ gid ++ ":\n\n" ++ rtext, none⟩], [])
  | .other =>
    if fromChatId = adminId then (db, [⟨fromChatId, helpText, none⟩], [])
    else (db, [], [])

/-- Folding a sequence of inbound messages through the interpreter; each
element carries sender, raw text, bulk-clear failure oracle and clock. -/
def processSeq (adminId : String) (db : DB)
    (msgs : List (String × String × Option ClearFail × Nat)) : DB :=
  msgs.foldl (fun d m => (handleMessage adminId m.1 m.2.1 d m.2.2.1 m.2.2.2).1) db

/-! ### Notification gateway (sendTelegramMessage / sendTelegramTo) -/

/-- A provider (Telegram API) JSON response as the gateway reads it:
success, failure with a description, or a body that failed JSON parsing
(read back as an ok-false object without description). -/
inductive TgResp where
  | success (raw : String)
  | failure (description : String)
  | badJson
deriving Repr, DecidableEq

/-- Outcome of one fetch call: a response, or a thrown network error. -/
inductive FetchResult where
  | resp (r : TgResp)
  | thrown (e : String)
deriving Repr, DecidableEq

/-- Whether the response object has ok set to true. -/
def TgResp.isOk : TgResp → Bool
  | .success _ => true
  | _ => false

/-- The description field of the response, empty when absent. -/
def TgResp.desc : TgResp → String
  | .failure d => d
  | _ => ""

/-- Anchored occurrence test: the pattern is a leading segment of the
list. -/
def listHasPre : List Char → List Char → Bool
  | [], _ => true
  | _ :: _, [] => false
  | a :: ps, b :: ls => a = b && listHasPre ps ls

/-- Occurrence of a pattern anywhere in a list. -/
def listOccurs (p : List Char) : List Char → Bool
  | [] => listHasPre p []
  | c :: rest => listHasPre p (c :: rest) || listOccurs p rest

/-- Substring occurrence test, as String.prototype.includes. -/
def containsSub (s pat : String) : Bool := listOccurs pat.data s.data

/-- Character-wise lowercasing of a string (toLowerCase on the ASCII
range the error substrings use). -/
def lowerStr (s : String) : String := String.mk (s.data.map Char.toLower)

/-- Markup-parse-error detection: the lowercased description contains one
of the known substrings. -/
def parseErrDesc (d : String) : Bool :=
  containsSub (lowerStr d) "can't parse entities" ||
  containsSub (lowerStr d) "unsupported start tag" ||
  containsSub (lowerStr d) "can't parse"

/-- Value returned by the gateway functions: the not-configured record,
the provider response passed through, or the caught-exception record.
Every constructor is an ok-flagged plain record; nothing escapes as an
exception. -/
inductive SendRet where
  | noConfig
  | dataOf (r : TgResp)
  | errcatch (e : String)
deriving Repr, DecidableEq

/-- The ok flag of the returned record. -/
def SendRet.ok : SendRet → Bool
  | .dataOf r => r.isOk
  | _ => false

/-- Shared body of both gateway functions after their configuration
check: attempt one with the requested parse mode; if it returns ok, done;
if its description reports a markup parse error, retry exactly once as
plain text (no parse mode) and return that second result; otherwise
return the first result.  A thrown fetch is caught and returned as an
error record.  Also returns the list of attempts actually made. -/
def sendCore (dest text : String) (parse_mode : Option String)
    (first second : FetchResult) : SendRet × List SentMsg :=
  let a1 : SentMsg := ⟨dest, text, parse_mode⟩
  match first with
  | .thrown e => (.errcatch e, [a1])
  | .resp r =>
    if r.isOk then (.dataOf r, [a1])
    else if parseErrDesc r.desc then
      let a2 : SentMsg := ⟨dest, text, none⟩
      match second with
      | .thrown e => (.errcatch e, [a1, a2])
      | .resp r2 => (.dataOf r2, [a1, a2])
    else (.dataOf r, [a1])

/-- sendTelegramMessage: broadcast to the configured chat; skipped with a
no-config record unless both the bot token and the chat id are set. -/
def sendTelegramMessage (hasToken : Bool) (chatId : String) (hasChatId : Bool)
    (text : String) (parse_mode : Option String)
    (first second : FetchResult) : SendRet × List SentMsg :=
  if !(hasToken && hasChatId) then (.noConfig, [])
  else sendCore chatId text parse_mode first second

/-- sendTelegramTo: send to an arbitrary chat id; skipped with a
no-config record unless the bot token is set. -/
def sendTelegramTo (hasToken : Bool) (chatId text : String) (parse_mode : Option String)
    (first second : FetchResult) : SendRet × List SentMsg :=
  if !hasToken then (.noConfig, [])
  else sendCore chatId text parse_mode first second

/-! ### JavaScript numbers and the mood route -/

/-- A JavaScript number: an exact finite rational, NaN, or a signed
infinity.  Exact rationals stand in for IEEE doubles; every literal used
by the claims is representable. -/
inductive JNum where
  | fin (q : ℚ)
  | nan
  | inf (pos : Bool)
deriving Repr, DecidableEq

/-- A JSON-ish JavaScript value as the routes see request body fields. -/
inductive JVal where
  | undef
  | null
  | jbool (b : Bool)
  | jnum (v : JNum)
  | jstr (s : String)
deriving Repr, DecidableEq

/-- JavaScript truthiness test (falsy: undefined, null, false, 0, NaN,
empty string). -/
def jsFalsy : JVal → Bool
  | .undef => true
  | .null => true
  | .jbool b => !b
  | .jnum (.fin q) => q == 0
  | .jnum .nan => true
  | .jnum (.inf _) => false
  | .jstr s => s == ""

/-- Digit test for the decimal literals. -/
def isDigitC (c : Char) : Bool := c.isDigit

/-- Value of a decimal digit character. -/
def digVal (c : Char) : Nat := c.toNat - 48

/-- Value of a digit list in base ten. -/
def natOfDigs (l : List Char) : Nat := l.foldl (fun a c => 10 * a + digVal c) 0

/-- Value of a digit character in a given radix, when valid. -/
def radixVal (r : Nat) (c : Char) : Option Nat :=
  let v :=
    if c.isDigit then some (c.toNat - 48)
    else if 'a' ≤ c ∧ c ≤ 'z' then some (c.toNat - 97 + 10)
    else if 'A' ≤ c ∧ c ≤ 'Z' then some (c.toNat - 65 + 10)
    else none
  match v with
  | some v => if v < r then some v else none
  | none => none

/-- Value of a non-empty all-valid digit list in a given radix. -/
def natOfRadix (r : Nat) (l : List Char) : Option Nat :=
  match l with
  | [] => none
  | _ =>
    l.foldl (fun a c =>
      match a, radixVal r c with
      | some a, some v => some (r * a + v)
      | _, _ => none) (some 0)

/-- Exponent part of a string numeric literal: optional sign then a
non-empty digit run consuming the whole rest. -/
def parseExpPart (l : List Char) : Option Int :=
  let (sgn, r) :=
    match l with
    | '+' :: r => ((1 : Int), r)
    | '-' :: r => ((-1 : Int), r)
    | r => ((1 : Int), r)
  match r with
  | [] => none
  | _ => if r.all isDigitC then some (sgn * (natOfDigs r : Int)) else none

/-- Unsigned decimal literal with optional fraction and exponent,
consuming the entire input: digits, digits-dot-digits, dot-digits or
digits-dot, each optionally followed by an exponent. -/
def parseDecLit (l : List Char) : Option ℚ :=
  let ip := l.takeWhile isDigitC
  let r1 := l.dropWhile isDigitC
  let core : Option (ℚ × List Char) :=
    match r1 with
    | '.' :: r2 =>
      let fp := r2.takeWhile isDigitC
      let r3 := r2.dropWhile isDigitC
      if ip = [] ∧ fp = [] then none
      else some ((natOfDigs ip : ℚ) + (natOfDigs fp : ℚ) / ((10 : ℚ) ^ fp.length), r3)
    | _ => if ip = [] then none else some ((natOfDigs ip : ℚ), r1)
  match core with
  | none => none
  | some (m, rest) =>
    match rest with
    | [] => some m
    | e :: r4 =>
      if e = 'e' ∨ e = 'E' then
        match parseExpPart r4 with
        | some ex => some (m * (10 : ℚ) ^ ex)
        | none => none
      else none

/-- The string-to-number conversion used by the Number() call of the
mood route: trim, empty means zero, optional sign with Infinity or a
decimal literal, or an unsigned radix-prefixed integer literal. -/
def strToNumber (s : String) : JNum :=
  let t := jsTrimChars s.data
  match t with
  | [] => .fin 0
  | '+' :: r =>
    if r = "Infinity".data then .inf true
    else match parseDecLit r with
      | some q => .fin q
      | none => .nan
  | '-' :: r =>
    if r = "Infinity".data then .inf false
    else match parseDecLit r with
      | some q => .fin (-q)
      | none => .nan
  | '0' :: x :: r =>
    if x = 'x' ∨ x = 'X' then
      match natOfRadix 16 r with
      | some n => .fin (n : ℚ)
      | none => .nan
    else if x = 'o' ∨ x = 'O' then
      match natOfRadix 8 r with
      | some n => .fin (n : ℚ)
      | none => .nan
    else if x = 'b' ∨ x = 'B' then
      match natOfRadix 2 r with
      | some n => .fin (n : ℚ)
      | none => .nan
    else
      match parseDecLit t with
      | some q => .fin q
      | none => .nan
  | _ =>
    if t = "Infinity".data then .inf true
    else match parseDecLit t with
      | some q => .fin q
      | none => .nan

/-- The Number() abstract conversion on request-body values. -/
def toNumber : JVal → JNum
  | .undef => .nan
  | .null => .fin 0
  | .jbool b => .fin (if b then 1 else 0)
  | .jnum v => v
  | .jstr s => strToNumber s

/-- Response of the mood creation route: a 400 with its message, or a
successful insert carrying the numeric value stored. -/
inductive MoodResp where
  | badReq (msg : String)
  | created (value : ℚ)
deriving Repr, DecidableEq

/-- The finiteness-and-range check of the mood route on the converted
number: non-finite or out-of-range is a 400, anything else is inserted
as-is. -/
def moodRangeCheck : JNum → MoodResp
  | .fin q => if q < 0 ∨ q > 10 then .badReq "value must be 0-10" else .created q
  | .nan => .badReq "value must be 0-10"
  | .inf _ => .badReq "value must be 0-10"

/-- POST /mood: reject when the username is falsy or the value key is
absent; convert the value with Number(); reject non-finite or
out-of-range values with a 400; otherwise insert the converted value. -/
def postMood (username value : JVal) : MoodResp :=
  if jsFalsy username || value == .undef then .badReq "username and value required"
  else moodRangeCheck (toNumber value)

/-! ### parseInt and the diary listing limit -/

/-- Digit run at the head of the input in radix ten, longest prefix;
empty run means NaN.  parseInt ignores trailing garbage. -/
def parseIntDec (l : List Char) : Option Nat :=
  let ds := l.takeWhile isDigitC
  match ds with
  | [] => none
  | _ => some (natOfDigs ds)

/-- Hex digit test. -/
def isHexDigit (c : Char) : Bool := (radixVal 16 c).isSome

/-- Unsigned part of parseInt with radix auto-detection: a 0x prefix
switches to hex (longest valid run, empty meaning NaN), otherwise
decimal. -/
def parseIntNoSign (l : List Char) : Option Nat :=
  match l with
  | '0' :: x :: r =>
    if x = 'x' ∨ x = 'X' then
      let ds := r.takeWhile isHexDigit
      match natOfRadix 16 ds with
      | some n => some n
      | none => none
    else parseIntDec l
  | _ => parseIntDec l

/-- parseInt with no radix argument: trim, optional sign, longest valid
digit prefix; none models NaN. -/
def jsParseInt (s : String) : Option Int :=
  match jsTrimChars s.data with
  | '-' :: r => (parseIntNoSign r).map (fun n => -(n : Int))
  | '+' :: r => (parseIntNoSign r).map (fun n => (n : Int))
  | r => (parseIntNoSign r).map (fun n => (n : Int))

/-- The string parseInt receives: the limit parameter, with absent or
empty (falsy) replaced by the default string twenty. -/
def limitParamStr (q : Option String) : String :=
  match q with
  | none => "20"
  | some s => if s = "" then "20" else s

/-- The Math.max-with-one then Math.min-with-one-hundred clamp; NaN
(none) propagates through both. -/
def clampLimit : Option Int → Option Int
  | none => none
  | some n => some (min 100 (max 1 n))

/-- The effective limit of GET /diary: default, parseInt, then the
clamp. -/
def effectiveLimit (q : Option String) : Option Int :=
  clampLimit (jsParseInt (limitParamStr q))

/-! ### Submission identities and creation paths -/

/-- The identity generator of POST /grievances and POST /diary: the
current time in milliseconds rendered in decimal. -/
def genId (now : Nat) : String := Nat.repr now

/-- The grievance row inserted by POST /grievances at clock `now`:
identity from the clock, both reply fields null. -/
def mkGrievanceRec (now : Nat) (username text : String)
    (audio_url telegram_file_id : Option String) : GrievanceRec :=
  { id := genId now, username := username, text := text, reply := none,
    audio_url := audio_url, telegram_file_id := telegram_file_id,
    created_at := now, replied_at := none }

/-- POST /grievances against the store: reject when username or text is
empty (falsy), else insert the new row. -/
def createGrievance (db : DB) (now : Nat) (username text : String)
    (audio_url telegram_file_id : Option String) : DB :=
  if username = "" ∨ text = "" then db
  else { db with grievances := db.grievances ++ [mkGrievanceRec now username text audio_url telegram_file_id] }

/-- POST /grievances/:id/reply against the store: a falsy reply is a
400; otherwise the same UPDATE as the inbound reply path, setting reply
and replied_at together.  The route answers 404 when no row matched, but
the store effect is what the invariant claims range over. -/
def apiReplyDb (db : DB) (gid reply : String) (now : Nat) : DB :=
  if reply = "" then db
  else { db with grievances := (updateGrievanceReply db.grievances gid reply now).1 }

/-! ### Command poller (pollTelegramUpdates loop and cursor) -/

/-- An inbound message as the poller reads it: originating chat identity
and the optional text and caption. -/
structure TgMsg where
  chat : String
  text : Option String
  caption : Option String
deriving Repr, DecidableEq

/-- An update of the getUpdates result: identifier, and the optional
message or edited message payloads. -/
structure TgUpdate where
  update_id : Nat
  message : Option TgMsg
  edited_message : Option TgMsg
deriving Repr, DecidableEq

/-- The message the loop works on: the message field, or the edited
message when the former is absent. -/
def msgOf (u : TgUpdate) : Option TgMsg :=
  match u.message with
  | some m => some m
  | none => u.edited_message

/-- JavaScript or-chaining of optional strings with truthiness: an
absent or empty first operand yields the second. -/
def jsOrStr (a : Option String) (b : String) : String :=
  match a with
  | none => b
  | some s => if s = "" then b else s

/-- The cursor advance at the head of each loop iteration: a truthy
identifier greater than the cursor replaces it, before any dispatch. -/
def advanceCursor (off : Nat) (u : TgUpdate) : Nat :=
  if u.update_id ≠ 0 ∧ u.update_id > off then u.update_id else off

/-- Dispatch of one update: nothing when it carries no message;
otherwise the interpreter on text-or-caption. -/
def dispatchUpdate (adminId : String) (db : DB) (u : TgUpdate)
    (fail : Option ClearFail) (now : Nat) : DB × List SentMsg × List String :=
  match msgOf u with
  | none => (db, [], [])
  | some m => handleMessage adminId m.chat (jsOrStr m.text (jsOrStr m.caption "")) db fail now

/-- The body of the update loop: advance the cursor, then dispatch.  A
dispatch marked as failing by `dfail` throws after the cursor advance,
aborting the rest of the cycle (caught by the outer handler).  The trace
records, per dispatched update, the cursor value on entering the
iteration, the cursor value at dispatch time, and the update itself. -/
def runUpdates (adminId : String) (dfail : TgUpdate → Bool)
    (fail : Option ClearFail) (now : Nat) :
    Nat → DB → List TgUpdate → Nat × DB × List (Nat × Nat × TgUpdate)
  | off, db, [] => (off, db, [])
  | off, db, u :: rest =>
    let off2 := advanceCursor off u
    if dfail u then (off2, db, [(off, off2, u)])
    else
      let db2 := (dispatchUpdate adminId db u fail now).1
      let r := runUpdates adminId dfail fail now off2 db2 rest
      (r.1, r.2.1, (off, off2, u) :: r.2.2)

/-- One poll cycle: a failed or not-ok getUpdates call (none) aborts the
cycle with everything unchanged; otherwise the update loop runs over the
fetched list. -/
def pollCycle (adminId : String) (dfail : TgUpdate → Bool)
    (fail : Option ClearFail) (now : Nat) (off : Nat) (db : DB)
    (fetched : Option (List TgUpdate)) : Nat × DB × List (Nat × Nat × TgUpdate) :=
  match fetched with
  | none => (off, db, [])
  | some us => runUpdates adminId dfail fail now off db us

/-! ### Decimal rendering is injective (for the identity generator) -/

/-- Structural decimal digit list of a natural number, most significant
digit first. -/
def natDigs (n : Nat) : List Char :=
  if h : n / 10 = 0 then [Nat.digitChar (n % 10)]
  else natDigs (n / 10) ++ [Nat.digitChar (n % 10)]
decreasing_by
  exact Nat.div_lt_self (Nat.pos_of_ne_zero (fun hn => h (by simp [hn]))) (by omega)

/-! ### The reply-field invariant and sample stores -/

/-- The reply invariant of the grievances table: the reply text and the
reply timestamp are populated together or both null. -/
def invariantDB (db : DB) : Prop :=
  ∀ g ∈ db.grievances, g.reply.isSome = g.replied_at.isSome

/-- A sample store with one record of each kind; the grievance identity
is the decimal rendering of its creation clock. -/
def sampleDB : DB :=
  ⟨[mkGrievanceRec 12345 "bittu" "the wifi is down" none none],
   [⟨1, "bittu", 7, 50⟩],
   [⟨"777", some "bittu", some "day one", "dear diary", none, none, 60⟩]⟩

/-- A store holding one grievance. -/
def dbOneG : DB := ⟨[mkGrievanceRec 1 "alice" "first" none none], [], []⟩

/-- A store holding two grievances. -/
def dbTwoG : DB :=
  ⟨[mkGrievanceRec 1 "alice" "first" none none,
    mkGrievanceRec 2 "bob" "second" none none], [], []⟩

/-- Unfolding of the structural digit list for a one-digit number. -/
theorem natDigs_base (n : Nat) (h : n / 10 = 0) :
    natDigs n = [Nat.digitChar (n % 10)] := by
  rw [natDigs]; simp [h]

/-- Unfolding of the structural digit list for a multi-digit number. -/
theorem natDigs_step (n : Nat) (h : ¬n / 10 = 0) :
    natDigs n = natDigs (n / 10) ++ [Nat.digitChar (n % 10)] := by
  rw [natDigs]; simp [h]

/-- With enough fuel, the fuelled digit renderer of the core library
prepends exactly the structural digit list. -/
theorem toDigitsCore_eq_natDigs :
    ∀ (fuel n : Nat) (ds : List Char), n < fuel →
      Nat.toDigitsCore 10 fuel n ds = natDigs n ++ ds := by
  intro fuel
  induction fuel with
  | zero => intro n ds h; omega
  | succ f ih =>
    intro n ds h
    by_cases h10 : n / 10 = 0
    · simp only [Nat.toDigitsCore, h10, if_pos]
      rw [natDigs_base n h10]
      simp
    · simp only [Nat.toDigitsCore, h10, if_neg, if_false]
      have hlt : n / 10 < f := by omega
      rw [ih (n / 10) _ hlt, natDigs_step n h10]
      simp

/-- Decoding a digit character produced for a digit value recovers it. -/
theorem digVal_digitChar (m : Nat) (h : m < 10) : digVal (Nat.digitChar m) = m := by
  interval_cases m <;> rfl

/-- Decoding the structural digit list recovers the number. -/
theorem natOfDigs_natDigs : ∀ n : Nat, natOfDigs (natDigs n) = n := by
  intro n
  induction n using Nat.strong_induction_on with
  | _ n ih =>
    by_cases h : n / 10 = 0
    · rw [natDigs_base n h]
      have hv : natOfDigs [Nat.digitChar (n % 10)] = n % 10 := by
        simp [natOfDigs, digVal_digitChar (n % 10) (by omega)]
      rw [hv]; omega
    · rw [natDigs_step n h]
      have happ : natOfDigs (natDigs (n / 10) ++ [Nat.digitChar (n % 10)]) =
          10 * natOfDigs (natDigs (n / 10)) + digVal (Nat.digitChar (n % 10)) := by
        simp [natOfDigs, List.foldl_append]
      rw [happ, ih (n / 10) (by omega), digVal_digitChar (n % 10) (by omega)]
      omega

/-- The structural digit list determines the number. -/
theorem natDigs_inj {m n : Nat} (h : natDigs m = natDigs n) : m = n := by
  have hm := natOfDigs_natDigs m
  rw [h, natOfDigs_natDigs] at hm
  omega

/-- The decimal rendering of the runtime is the structural digit list. -/
theorem repr_eq_natDigs (n : Nat) : Nat.repr n = String.mk (natDigs n) := by
  show (Nat.toDigits 10 n).asString = _
  rw [Nat.toDigits, toDigitsCore_eq_natDigs (n + 1) n [] (Nat.lt_succ_self n)]
  simp [List.asString]

/-- The identity generator is injective on clock values: distinct
milliseconds render to distinct identity strings. -/
theorem genId_inj {t1 t2 : Nat} (h : genId t1 = genId t2) : t1 = t2 := by
  have hmk : String.mk (natDigs t1) = String.mk (natDigs t2) := by
    rw [← repr_eq_natDigs, ← repr_eq_natDigs]
    exact h
  exact natDigs_inj (by injection hmk)

/-! ### Claim theorems -/

/-- C2 counterexample: the identity generator derives the id from the
clock alone, so two distinct creation requests (different authors and
bodies) arriving in the same millisecond are assigned the same identity.
The claim that every pair of distinct requests gets distinct identities
is therefore false under concurrent (same-millisecond) submission. -/
theorem grievance_id_collision :
    (mkGrievanceRec 1000 "alice" "complaint A" none none).id =
      (mkGrievanceRec 1000 "bob" "complaint B" none none).id ∧
    ("alice" : String) ≠ "bob" ∧
    mkGrievanceRec 1000 "alice" "complaint A" none none ≠
      mkGrievanceRec 1000 "bob" "complaint B" none none := by
  refine ⟨rfl, by decide, by decide⟩

/-- C2 (amended): creation requests that observe distinct clock
milliseconds are assigned distinct identities, because the decimal
rendering of the clock is injective; uniqueness holds only across
distinct timestamps, not under same-millisecond concurrency. -/
theorem grievance_id_distinct (t1 t2 : Nat) (h : t1 ≠ t2)
    (u1 x1 u2 x2 : String) (a1 f1 a2 f2 : Option String) :
    (mkGrievanceRec t1 u1 x1 a1 f1).id ≠ (mkGrievanceRec t2 u2 x2 a2 f2).id :=
  fun hc => h (genId_inj hc)

/-- Witness for the amended C2 theorem at two concrete timestamps. -/
theorem grievance_id_distinct_witness :
    (1000 : Nat) ≠ 1001 ∧
    (mkGrievanceRec 1000 "a" "x" none none).id ≠ (mkGrievanceRec 1001 "a" "x" none none).id :=
  ⟨by decide, grievance_id_distinct 1000 1001 (by decide) "a" "x" "a" "x" none none none none⟩

/-- C4 counterexample: when the second DELETE (moods) fails, the catch
block replies with a fixed failure text carrying only the error message.
Two stores in which different grievance deletion counts were reached
before the failing call produce the identical reply, so the reply cannot
report the count reached before the failure; the claim that the sender
receives the reached deletion count is false.  (The grievances deleted
before the failure are indeed kept deleted.) -/
theorem bulk_clear_no_count :
    (doConfirmClear dbOneG (some (.atM "boom"))).2.1 =
      (doConfirmClear dbTwoG (some (.atM "boom"))).2.1 ∧
    dbOneG.grievances.length ≠ dbTwoG.grievances.length ∧
    (doConfirmClear dbOneG (some (.atM "boom"))).2.1 = "❌ Failed to delete data: boom" ∧
    (doConfirmClear dbOneG (some (.atM "boom"))).1.grievances = [] := by
  refine ⟨rfl, by decide, rfl, rfl⟩

/-- C4 (amended): on a partial bulk-clear failure the sender receives a
failure reply carrying the error message (no counts), the error is
logged, and the deletions already performed are not rolled back: a
failure at the moods DELETE keeps the grievances deleted, a failure at
the diary DELETE keeps grievances and moods deleted, and a failure at
the first DELETE leaves everything in place. -/
theorem bulk_clear_partial (db : DB) (e : String) :
    ((doConfirmClear db (some (.atG e))).1 = db ∧
     (doConfirmClear db (some (.atG e))).2.1 = "❌ Failed to delete data: " ++ e ∧
     (doConfirmClear db (some (.atG e))).2.2 ≠ []) ∧
    ((doConfirmClear db (some (.atM e))).1.grievances = [] ∧
     (doConfirmClear db (some (.atM e))).1.moods = db.moods ∧
     (doConfirmClear db (some (.atM e))).1.diary = db.diary ∧
     (doConfirmClear db (some (.atM e))).2.1 = "❌ Failed to delete data: " ++ e ∧
     (doConfirmClear db (some (.atM e))).2.2 ≠ []) ∧
    ((doConfirmClear db (some (.atD e))).1.grievances = [] ∧
     (doConfirmClear db (some (.atD e))).1.moods = [] ∧
     (doConfirmClear db (some (.atD e))).1.diary = db.diary ∧
     (doConfirmClear db (some (.atD e))).2.1 = "❌ Failed to delete data: " ++ e ∧
     (doConfirmClear db (some (.atD e))).2.2 ≠ []) := by
  refine ⟨⟨rfl, rfl, by simp [doConfirmClear]⟩,
          ⟨rfl, rfl, rfl, rfl, by simp [doConfirmClear]⟩,
          ⟨rfl, rfl, rfl, rfl, by simp [doConfirmClear]⟩⟩

/-- C10: an update carrying only an edited message is dispatched exactly
like a fresh update carrying that message: the command interpreter sees
the same text or caption, and the cursor advance is the same. -/
theorem edited_message_dispatch (adminId : String) (db : DB) (u : TgUpdate) (m : TgMsg)
    (fail : Option ClearFail) (now off : Nat)
    (h1 : u.message = none) (h2 : u.edited_message = some m) :
    dispatchUpdate adminId db u fail now =
      dispatchUpdate adminId db ⟨u.update_id, some m, none⟩ fail now ∧
    advanceCursor off u = advanceCursor off ⟨u.update_id, some m, none⟩ := by
  constructor
  · simp [dispatchUpdate, msgOf, h1, h2]
  · rfl

/-- Witness for the C10 theorem at a concrete edited-message update. -/
theorem edited_message_dispatch_witness :
    dispatchUpdate "admin" sampleDB ⟨5, none, some ⟨"admin", some "/clear", none⟩⟩ none 9 =
      dispatchUpdate "admin" sampleDB ⟨5, some ⟨"admin", some "/clear", none⟩, none⟩ none 9 ∧
    advanceCursor 3 ⟨5, none, some ⟨"admin", some "/clear", none⟩⟩ =
      advanceCursor 3 ⟨5, some ⟨"admin", some "/clear", none⟩, none⟩ :=
  edited_message_dispatch "admin" sampleDB ⟨5, none, some ⟨"admin", some "/clear", none⟩⟩
    ⟨"admin", some "/clear", none⟩ none 9 3 rfl rfl

/-- Helper: the retry behaviour of the shared gateway body.  The first
attempt carries the requested parse mode; a second attempt happens
exactly when the first fetch produced an ok-false response whose
description matches a known markup-parse error, in which case the second
(plain) attempt's result is returned; a thrown first fetch is caught and
returned as an error record. -/
theorem sendCore_spec (dest text : String) (pm : Option String)
    (first second : FetchResult) :
    ((sendCore dest text pm first second).2.head? = some ⟨dest, text, pm⟩) ∧
    (((sendCore dest text pm first second).2.length = 2) ↔
      (∃ d, first = .resp (.failure d) ∧ parseErrDesc d = true)) ∧
    ((sendCore dest text pm first second).2.length = 2 →
      (sendCore dest text pm first second).2 = [⟨dest, text, pm⟩, ⟨dest, text, none⟩] ∧
      (sendCore dest text pm first second).1 =
        (match second with
         | .thrown e => SendRet.errcatch e
         | .resp r2 => SendRet.dataOf r2)) ∧
    (∀ e, first = .thrown e → (sendCore dest text pm first second).1 = .errcatch e) := by
  match first with
  | .thrown e =>
    refine ⟨rfl, ?_, ?_, ?_⟩
    · simp [sendCore]
    · simp [sendCore]
    · intro e2 he; cases he; rfl
  | .resp r =>
    match r with
    | .success raw =>
      refine ⟨rfl, ?_, ?_, ?_⟩
      · simp [sendCore, TgResp.isOk]
      · simp [sendCore, TgResp.isOk]
      · intro e2 he; cases he
    | .badJson =>
      have hpe : parseErrDesc (TgResp.desc .badJson) = false := by decide
      refine ⟨?_, ?_, ?_, ?_⟩
      · simp [sendCore, TgResp.isOk, hpe]
      · simp [sendCore, TgResp.isOk, hpe]
      · simp [sendCore, TgResp.isOk, hpe]
      · intro e2 he; cases he
    | .failure d =>
      by_cases hpe : parseErrDesc d = true
      · refine ⟨?_, ?_, ?_, ?_⟩
        · cases second <;> simp [sendCore, TgResp.isOk, TgResp.desc, hpe]
        · cases second <;> simp [sendCore, TgResp.isOk, TgResp.desc, hpe]
        · cases second <;> simp [sendCore, TgResp.isOk, TgResp.desc, hpe]
        · intro e2 he; cases he
      · refine ⟨?_, ?_, ?_, ?_⟩
        · simp [sendCore, TgResp.isOk, TgResp.desc, hpe]
        · simp [sendCore, TgResp.isOk, TgResp.desc, hpe]
        · simp [sendCore, TgResp.isOk, TgResp.desc, hpe]
        · intro e2 he; cases he

/-- C6: for both gateway text sends (broadcast and directed), with the
bot configured: the text goes out first with the requested markup parse
mode; a plain-text retry happens exactly when the provider response is a
failure whose description contains a known markup-parse-error substring,
and then the plain attempt's result is what the caller observes; a
thrown fetch is caught and surfaced as an ok-false record, so the
gateway always returns a result record and never throws. -/
theorem gateway_markup_fallback (chatId text pm : String)
    (first second : FetchResult) :
    (sendTelegramMessage true chatId true text (some pm) first second =
       sendCore chatId text (some pm) first second ∧
     sendTelegramTo true chatId text (some pm) first second =
       sendCore chatId text (some pm) first second) ∧
    ((sendCore chatId text (some pm) first second).2.head? =
       some ⟨chatId, text, some pm⟩) ∧
    (((sendCore chatId text (some pm) first second).2.length = 2) ↔
      (∃ d, first = .resp (.failure d) ∧ parseErrDesc d = true)) ∧
    ((sendCore chatId text (some pm) first second).2.length = 2 →
      (sendCore chatId text (some pm) first second).2 =
        [⟨chatId, text, some pm⟩, ⟨chatId, text, none⟩] ∧
      (sendCore chatId text (some pm) first second).1 =
        (match second with
         | .thrown e => SendRet.errcatch e
         | .resp r2 => SendRet.dataOf r2)) ∧
    (∀ e, first = .thrown e →
      (sendCore chatId text (some pm) first second).1 = .errcatch e) := by
  have h := sendCore_spec chatId text (some pm) first second
  exact ⟨⟨rfl, rfl⟩, h.1, h.2.1, h.2.2.1, h.2.2.2⟩

/-- Helper: full characterisation of a successful mood insert — the
username is truthy, the value key is present, and Number() of the value
is finite and inside the range. -/
theorem postMood_created_iff (u v : JVal) (q : ℚ) :
    postMood u v = .created q ↔
      (jsFalsy u = false ∧ (v == JVal.undef) = false ∧
       toNumber v = .fin q ∧ 0 ≤ q ∧ q ≤ 10) := by
  unfold postMood
  by_cases h1 : (jsFalsy u || v == JVal.undef) = true
  · simp only [h1, if_true]
    constructor
    · intro h; exact MoodResp.noConfusion h
    · rintro ⟨ha, hb, -⟩
      rcases Bool.or_eq_true_iff.mp h1 with h | h
      · rw [ha] at h; exact Bool.noConfusion h
      · rw [hb] at h; exact Bool.noConfusion h
  · have h1f : (jsFalsy u || v == JVal.undef) = false := Bool.eq_false_iff.mpr h1
    have h2 := Bool.or_eq_false_iff.mp h1f
    simp only [h1f, Bool.false_eq_true, if_false]
    cases htn : toNumber v with
    | fin q2 =>
      simp only [moodRangeCheck]
      by_cases hr : q2 < 0 ∨ q2 > 10
      · rw [if_pos hr]
        constructor
        · intro h; exact MoodResp.noConfusion h
        · rintro ⟨-, -, hq, h0, h10⟩
          injection hq with hq
          subst hq
          rcases hr with h | h
          · exact absurd h0 (not_le.mpr h)
          · exact absurd h10 (not_le.mpr h)
      · rw [if_neg hr]
        push_neg at hr
        constructor
        · intro h
          injection h with h
          subst h
          exact ⟨h2.1, h2.2, rfl, hr.1, hr.2⟩
        · rintro ⟨-, -, hq, -, -⟩
          injection hq with hq
          rw [hq]
    | nan =>
      simp only [moodRangeCheck]
      constructor
      · intro h; exact MoodResp.noConfusion h
      · rintro ⟨-, -, hq, -, -⟩; exact JNum.noConfusion hq
    | inf b =>
      simp only [moodRangeCheck]
      constructor
      · intro h; exact MoodResp.noConfusion h
      · rintro ⟨-, -, hq, -, -⟩; exact JNum.noConfusion hq

/-- C7 counterexample: the mood route validates with a finiteness and
range check only, so the fractional value eleven halves is accepted and
inserted as-is; the stored value is not an integer, contradicting the
claim that stored values are integers in the range. -/
theorem mood_fractional_accepted :
    postMood (.jstr "bittu") (.jnum (.fin (11 / 2))) = .created (11 / 2) ∧
    ¬∃ n : ℤ, (11 / 2 : ℚ) = (n : ℚ) := by
  constructor
  · exact (postMood_created_iff _ _ _).mpr ⟨rfl, rfl, rfl, by norm_num, by norm_num⟩
  · rintro ⟨n, hn⟩
    have h : (11 : ℚ) = 2 * (n : ℚ) := by
      rw [div_eq_iff (by norm_num : (2 : ℚ) ≠ 0)] at hn
      linarith
    have h2 : (11 : ℤ) = 2 * n := by exact_mod_cast h
    omega

/-- C7 (amended): POST /mood inserts a record exactly when the username
is truthy, the value key is present, and Number() of the value is a
finite number between zero and ten inclusive — not necessarily an
integer; the stored value is the converted number itself.  Values
eleven, minus one and a non-numeric string are rejected with a 400 and
no insert; the boundary values zero and ten are accepted. -/
theorem mood_validation (u v : JVal) :
    ((∃ q, postMood u v = .created q) ↔
      (jsFalsy u = false ∧ v ≠ .undef ∧
       ∃ q, toNumber v = .fin q ∧ 0 ≤ q ∧ q ≤ 10)) ∧
    (∀ q, postMood u v = .created q → toNumber v = .fin q) ∧
    postMood (.jstr "bittu") (.jnum (.fin 11)) = .badReq "value must be 0-10" ∧
    postMood (.jstr "bittu") (.jnum (.fin (-1))) = .badReq "value must be 0-10" ∧
    postMood (.jstr "bittu") (.jstr "abc") = .badReq "value must be 0-10" ∧
    postMood (.jstr "bittu") (.jnum (.fin 0)) = .created 0 ∧
    postMood (.jstr "bittu") (.jnum (.fin 10)) = .created 10 := by
  refine ⟨?_, ?_, by decide, by decide, by decide, by decide, by decide⟩
  · constructor
    · rintro ⟨q, hq⟩
      obtain ⟨h1, h2, h3, h4, h5⟩ := (postMood_created_iff u v q).mp hq
      exact ⟨h1, by simpa using h2, q, h3, h4, h5⟩
    · rintro ⟨h1, h2, q, h3, h4, h5⟩
      exact ⟨q, (postMood_created_iff u v q).mpr ⟨h1, by simpa using h2, h3, h4, h5⟩⟩
  · intro q hq
    exact ((postMood_created_iff u v q).mp hq).2.2.1

/-- C8 counterexample: a non-numeric limit parameter makes parseInt
return NaN, which propagates through Math.max and Math.min, so the
effective limit is NaN rather than a value clamped into the interval
one to one hundred; the universal clamp claim fails for such requests
(the query then errors instead of listing). -/
theorem diary_limit_nan : ¬∃ n : Int, effectiveLimit (some "abc") = some n ∧ 1 ≤ n ∧ n ≤ 100 := by
  have h : effectiveLimit (some "abc") = none := by decide
  rintro ⟨n, hn, -, -⟩
  rw [h] at hn
  exact Option.noConfusion hn

/-- C8 (amended): whenever the limit parameter parses to a number (is
not NaN), the effective limit is clamped into the interval one to one
hundred; a limit of five hundred is clamped to one hundred, zero is
clamped to one, and an absent limit defaults to twenty. -/
theorem diary_limit_clamp (q : Option String) (n : Int)
    (h : effectiveLimit q = some n) :
    (1 ≤ n ∧ n ≤ 100) ∧
    effectiveLimit (some "500") = some 100 ∧
    effectiveLimit (some "0") = some 1 ∧
    effectiveLimit none = some 20 := by
  refine ⟨?_, by decide, by decide, by decide⟩
  unfold effectiveLimit at h
  cases hp : jsParseInt (limitParamStr q) with
  | none => rw [hp] at h; exact Option.noConfusion h
  | some m =>
    rw [hp] at h
    simp only [clampLimit] at h
    injection h with h
    subst h
    constructor
    · exact le_min (by norm_num) (le_max_left 1 m)
    · exact min_le_left 100 (max 1 m)

/-- Witness for the amended C8 theorem at the concrete limit 500. -/
theorem diary_limit_clamp_witness :
    effectiveLimit (some "500") = some 100 ∧
    (1 ≤ (100 : Int) ∧ (100 : Int) ≤ 100) :=
  ⟨by decide, (diary_limit_clamp (some "500") 100 (by decide)).1⟩

/-- Helper: a clear or confirm-clear message from a sender other than
the admin identity is answered with the refusal text and leaves the
store untouched. -/
theorem handleMessage_nonadmin_clear (adminId s raw : String) (db : DB)
    (fail : Option ClearFail) (now : Nat) (hs : s ≠ adminId)
    (hc : classify (jsTrim raw) = Cmd.clearReq ∨ classify (jsTrim raw) = Cmd.clearConfirm) :
    handleMessage adminId s raw db fail now = (db, [⟨s, unauthClearText, none⟩], []) := by
  rcases hc with h | h <;> simp [handleMessage, h, hs]

/-- C1: the confirm-clear flow is stateless.  A sender whose chat
identity differs from the admin identity can send any sequence of clear
and confirm-clear messages without deleting anything (the store is
unchanged after the whole sequence), and a confirm-clear from the admin
deletes everything when the three DELETE statements succeed, with no
prior clear message required. -/
theorem confirm_clear_stateless (adminId s : String) (db : DB)
    (msgs : List (String × String × Option ClearFail × Nat))
    (hs : s ≠ adminId)
    (hall : ∀ m ∈ msgs, m.1 = s ∧
      (classify (jsTrim m.2.1) = Cmd.clearReq ∨ classify (jsTrim m.2.1) = Cmd.clearConfirm)) :
    processSeq adminId db msgs = db ∧
    (∀ (db2 : DB) (t : String) (now : Nat), classify (jsTrim t) = Cmd.clearConfirm →
      (handleMessage adminId adminId t db2 none now).1 = DB.empty) := by
  constructor
  · induction msgs generalizing db with
    | nil => rfl
    | cons m rest ih =>
      have hm := hall m (List.mem_cons_self m rest)
      have hstep : (handleMessage adminId m.1 m.2.1 db m.2.2.1 m.2.2.2).1 = db := by
        rw [hm.1, handleMessage_nonadmin_clear adminId s m.2.1 db m.2.2.1 m.2.2.2 hs hm.2]
      show processSeq adminId (handleMessage adminId m.1 m.2.1 db m.2.2.1 m.2.2.2).1 rest = db
      rw [hstep]
      exact ih db (fun m2 hm2 => hall m2 (List.mem_cons_of_mem m hm2))
  · intro db2 t now hc
    simp [handleMessage, hc, doConfirmClear, DB.empty]

/-- Witness for the C1 theorem: a non-admin clear and confirm-clear pair
leaves a populated store unchanged, and an admin confirm-clear with no
prior clear empties it. -/
theorem confirm_clear_stateless_witness :
    processSeq "admin" sampleDB [("user", "/clear", none, 1), ("user", "/confirm_clear", none, 2)] = sampleDB ∧
    (handleMessage "admin" "admin" "/confirm_clear" sampleDB none 3).1 = DB.empty := by
  have h := confirm_clear_stateless "admin" "user" sampleDB
    [("user", "/clear", none, 1), ("user", "/confirm_clear", none, 2)]
    (by decide) (by decide)
  exact ⟨h.1, h.2 sampleDB "/confirm_clear" 3 (by decide)⟩

/-- Helper: the reply UPDATE sets the reply text and the reply timestamp
together on every row whose id matches, and the invariant that both are
populated together is preserved on every row. -/
theorem invariant_update (l : List GrievanceRec)
    (h : ∀ g ∈ l, g.reply.isSome = g.replied_at.isSome) (gid rtext : String) (now : Nat) :
    ∀ g ∈ (updateGrievanceReply l gid rtext now).1, g.reply.isSome = g.replied_at.isSome := by
  intro g hg
  simp only [updateGrievanceReply, List.mem_map] at hg
  obtain ⟨g0, hg0, rfl⟩ := hg
  by_cases hid : (g0.id == gid) = true
  · simp [hid]
  · simp [hid]
    exact h g0 hg0

/-- C5: an inbound message that classifies as a reply command with a
token and text: when some grievance row has that token as id, the
interpreter answers by echoing the recorded reply and every matching
row gets the reply text and a non-null reply timestamp; when no row
matches, the interpreter answers not-found and the store is unchanged. -/
theorem reply_command (adminId sender t tok rtext : String) (db : DB)
    (fail : Option ClearFail) (now : Nat)
    (hc : classify (jsTrim t) = Cmd.record tok rtext) :
    (db.grievances.countP (fun g => g.id == tok) ≠ 0 →
      handleMessage adminId sender t db fail now =
        ({ db with grievances := (updateGrievanceReply db.grievances tok rtext now).1 },
         [⟨sender, "Reply recorded for grievance ID " ++ tok ++ ":\n\n" ++ rtext, none⟩], []) ∧
      ∀ g ∈ (handleMessage adminId sender t db fail now).1.grievances,
        g.id = tok → g.reply = some rtext ∧ g.replied_at = some now) ∧
    (db.grievances.countP (fun g => g.id == tok) = 0 →
      handleMessage adminId sender t db fail now =
        (db, [⟨sender, "No grievance found with ID " ++ tok ++ ".", none⟩], [])) := by
  constructor
  · intro hne
    have heq : handleMessage adminId sender t db fail now =
        ({ db with grievances := (updateGrievanceReply db.grievances tok rtext now).1 },
         [⟨sender, "Reply recorded for grievance ID " ++ tok ++ ":\n\n" ++ rtext, none⟩], []) := by
      simp [handleMessage, hc, updateGrievanceReply, hne]
    refine ⟨heq, ?_⟩
    intro g hg htok
    rw [heq] at hg
    simp only [updateGrievanceReply, List.mem_map] at hg
    obtain ⟨g0, hg0, rfl⟩ := hg
    by_cases hid : (g0.id == tok) = true
    · simp [hid]
    · simp only [hid, Bool.false_eq_true, if_false] at htok ⊢
      exact absurd (beq_iff_eq.mpr htok) (by simpa using hid)
  · intro hz
    simp [handleMessage, hc, updateGrievanceReply, hz]

/-- Witness for the C5 theorem: the concrete command against the sample
store, which holds a grievance with identity 12345, and a command naming
the absent identity 99999. -/
theorem reply_command_witness :
    classify (jsTrim "reply 12345 All good now") = Cmd.record "12345" "All good now" ∧
    handleMessage "admin" "admin" "reply 12345 All good now" sampleDB none 99 =
      ({ sampleDB with grievances := (updateGrievanceReply sampleDB.grievances "12345" "All good now" 99).1 },
       [⟨"admin", "Reply recorded for grievance ID " ++ "12345" ++ ":\n\n" ++ "All good now", none⟩], []) ∧
    handleMessage "admin" "admin" "reply 99999 Nope" sampleDB none 99 =
      (sampleDB, [⟨"admin", "No grievance found with ID " ++ "99999" ++ ".", none⟩], []) := by
  refine ⟨by decide, ?_, ?_⟩
  · exact ((reply_command "admin" "admin" "reply 12345 All good now" "12345" "All good now"
      sampleDB none 99 (by decide)).1 (by decide)).1
  · exact (reply_command "admin" "admin" "reply 99999 Nope" "99999" "Nope"
      sampleDB none 99 (by decide)).2 (by decide)

/-- C3: the reply-and-timestamp invariant.  Starting from a store where
every grievance has reply and replied_at populated together or both
null, the invariant is preserved by grievance creation (both start
null), by any inbound command through the interpreter (the reply path
sets both together, the clear paths delete whole tables), and by the
direct reply route (same UPDATE). -/
theorem reply_timestamp_invariant (db : DB) (hinv : invariantDB db)
    (now : Nat) (u x gid rtext adminId sender raw : String)
    (a f : Option String) (fail : Option ClearFail) :
    invariantDB (createGrievance db now u x a f) ∧
    invariantDB (handleMessage adminId sender raw db fail now).1 ∧
    invariantDB (apiReplyDb db gid rtext now) := by
  refine ⟨?_, ?_, ?_⟩
  · unfold createGrievance
    split
    · exact hinv
    · intro g hg
      simp only [List.mem_append, List.mem_singleton] at hg
      rcases hg with hg | rfl
      · exact hinv g hg
      · rfl
  · cases hc : classify (jsTrim raw) with
    | clearReq =>
      simp only [handleMessage, hc]
      split <;> exact hinv
    | clearConfirm =>
      simp only [handleMessage, hc]
      split
      · exact hinv
      · cases fail with
        | none => intro g hg; simp [doConfirmClear, DB.empty] at hg
        | some cf =>
          cases cf with
          | atG e => exact hinv
          | atM e => intro g hg; simp [doConfirmClear] at hg
          | atD e => intro g hg; simp [doConfirmClear] at hg
    | delDiary tok =>
      simp only [handleMessage, hc]
      split
      · exact hinv
      · split
        · exact hinv
        · exact hinv
    | record gid2 rtext2 =>
      simp only [handleMessage, hc]
      split
      · exact hinv
      · exact invariant_update db.grievances hinv gid2 rtext2 now
    | other =>
      simp only [handleMessage, hc]
      split <;> exact hinv
  · unfold apiReplyDb
    split
    · exact hinv
    · exact invariant_update db.grievances hinv gid rtext now

/-- Witness for the C3 theorem: the sample store satisfies the invariant
and all three operation kinds preserve it there. -/
theorem reply_timestamp_invariant_witness :
    invariantDB sampleDB ∧
    invariantDB (createGrievance sampleDB 77 "u" "x" none none) ∧
    invariantDB (handleMessage "admin" "admin" "reply 12345 ok" sampleDB none 77).1 ∧
    invariantDB (apiReplyDb sampleDB "12345" "done" 77) := by
  have h := reply_timestamp_invariant sampleDB (by unfold invariantDB; decide) 77 "u" "x" "12345" "done"
    "admin" "admin" "reply 12345 ok" none none none
  exact ⟨by unfold invariantDB; decide, h.1, h.2.1, h.2.2⟩

/-- Helper: the cursor advance never decreases the cursor. -/
theorem advanceCursor_ge (off : Nat) (u : TgUpdate) : off ≤ advanceCursor off u := by
  unfold advanceCursor
  split <;> omega

/-- Helper: the update loop never decreases the cursor; along its trace
the cursor on entering each iteration is at least the starting cursor,
the dispatch-time cursor is the advance of the entry cursor, everything
is bounded by the final cursor, the first entry starts at the starting
cursor, and consecutive entries hand the cursor over exactly. -/
theorem runUpdates_spec (adminId : String) (dfail : TgUpdate → Bool)
    (fail : Option ClearFail) (now : Nat) :
    ∀ (us : List TgUpdate) (off : Nat) (db : DB),
      off ≤ (runUpdates adminId dfail fail now off db us).1 ∧
      (∀ p ∈ (runUpdates adminId dfail fail now off db us).2.2,
        off ≤ p.1 ∧ p.1 ≤ p.2.1 ∧ p.2.1 ≤ (runUpdates adminId dfail fail now off db us).1 ∧
        p.2.1 = advanceCursor p.1 p.2.2) ∧
      (∀ p, (runUpdates adminId dfail fail now off db us).2.2.head? = some p → p.1 = off) ∧
      List.Chain' (fun a b => b.1 = a.2.1) (runUpdates adminId dfail fail now off db us).2.2 := by
  intro us
  induction us with
  | nil =>
    intro off db
    refine ⟨Nat.le_refl off, ?_, ?_, ?_⟩
    · intro p hp; simp [runUpdates] at hp
    · intro p hp; simp [runUpdates] at hp
    · simp [runUpdates]
  | cons u rest ih =>
    intro off db
    by_cases hd : dfail u = true
    · have hred : runUpdates adminId dfail fail now off db (u :: rest) =
          (advanceCursor off u, db, [(off, advanceCursor off u, u)]) := by
        simp [runUpdates, hd]
      rw [hred]
      refine ⟨advanceCursor_ge off u, ?_, ?_, ?_⟩
      · intro p hp
        simp only [List.mem_singleton] at hp
        subst hp
        exact ⟨Nat.le_refl off, advanceCursor_ge off u, Nat.le_refl _, rfl⟩
      · intro p hp
        simp only [List.head?_cons, Option.some.injEq] at hp
        rw [← hp]
      · simp
    · have hred : runUpdates adminId dfail fail now off db (u :: rest) =
          ((runUpdates adminId dfail fail now (advanceCursor off u)
              (dispatchUpdate adminId db u fail now).1 rest).1,
           (runUpdates adminId dfail fail now (advanceCursor off u)
              (dispatchUpdate adminId db u fail now).1 rest).2.1,
           (off, advanceCursor off u, u) ::
             (runUpdates adminId dfail fail now (advanceCursor off u)
               (dispatchUpdate adminId db u fail now).1 rest).2.2) := by
        simp [runUpdates, hd]
      rw [hred]
      obtain ⟨ihA, ihB, ihC, ihD⟩ := ih (advanceCursor off u) (dispatchUpdate adminId db u fail now).1
      refine ⟨Nat.le_trans (advanceCursor_ge off u) ihA, ?_, ?_, ?_⟩
      · intro p hp
        rcases List.mem_cons.mp hp with rfl | hp2
        · exact ⟨Nat.le_refl off, advanceCursor_ge off u, ihA, rfl⟩
        · obtain ⟨h1, h2, h3, h4⟩ := ihB p hp2
          exact ⟨Nat.le_trans (advanceCursor_ge off u) h1, h2, h3, h4⟩
      · intro p hp
        simp only [List.head?_cons, Option.some.injEq] at hp
        rw [← hp]
      · cases htr : (runUpdates adminId dfail fail now (advanceCursor off u)
            (dispatchUpdate adminId db u fail now).1 rest).2.2 with
        | nil => simp [htr]
        | cons p0 ptail =>
          rw [htr] at ihD
          rw [List.chain'_cons]
          exact ⟨(ihC p0 (by rw [htr]; rfl)).symm ▸ rfl, ihD⟩

/-- C9: the update cursor is monotone.  A failed poll cycle leaves the
cursor, the store and the dispatch trace unchanged; a successful cycle
never decreases the cursor; along the cycle the cursor value at each
dispatch is the advance of the iteration-entry value (so it never
decreases from entry to dispatch to the final value, and consecutive
iterations hand it over exactly); and whenever the update identifier is
truthy and exceeds the entry cursor, the cursor equals that identifier
already at dispatch time. -/
theorem cursor_monotone (adminId : String) (dfail : TgUpdate → Bool)
    (fail : Option ClearFail) (now off : Nat) (db : DB) (us : List TgUpdate) :
    pollCycle adminId dfail fail now off db none = (off, db, []) ∧
    off ≤ (pollCycle adminId dfail fail now off db (some us)).1 ∧
    (∀ p ∈ (pollCycle adminId dfail fail now off db (some us)).2.2,
      off ≤ p.1 ∧ p.1 ≤ p.2.1 ∧
      p.2.1 ≤ (pollCycle adminId dfail fail now off db (some us)).1 ∧
      (p.2.2.update_id ≠ 0 ∧ p.1 < p.2.2.update_id → p.2.1 = p.2.2.update_id)) ∧
    (∀ p, (pollCycle adminId dfail fail now off db (some us)).2.2.head? = some p → p.1 = off) ∧
    List.Chain' (fun a b => b.1 = a.2.1)
      (pollCycle adminId dfail fail now off db (some us)).2.2 := by
  obtain ⟨hA, hB, hC, hD⟩ := runUpdates_spec adminId dfail fail now us off db
  refine ⟨rfl, hA, ?_, hC, hD⟩
  intro p hp
  obtain ⟨h1, h2, h3, h4⟩ := hB p hp
  refine ⟨h1, h2, h3, ?_⟩
  intro ⟨hne, hlt⟩
  rw [h4]
  unfold advanceCursor
  rw [if_pos ⟨hne, hlt⟩]

end GrievanceApp
